import Mathlib

/-!
Verification development for the message-exchange client (src/app.py).

The Python source is shallowly embedded: JSON values returned by the
forum server are modelled by `JValue`; each network request performed
through `MessageServiceClient` is modelled by an `Except String JValue`
(the `.error` case standing for a raised exception whose message is the
stringified cause), and the retry loop of `_make_request` and
`_make_sync_request` is modelled by an explicit recursion over the
outcome of each attempt.  Python-level dynamic typing details that the
code relies on (truthiness, `len`, `dict.get`, iteration over arbitrary
values, `TypeError` on slicing non-strings) are embedded as explicit
functions with `Except` results where the operation can raise.
-/

/-- A JSON value as produced by `response.json()` in httpx. -/
inductive JValue where
  | str (s : String)
  | num (n : Int)
  | bool (b : Bool)
  | null
  | list (xs : List JValue)
  | obj (fields : List (String × JValue))

/-- Association-list lookup, first match wins; models Python `dict` lookup
on the field lists of `JValue.obj`. -/
def dLookup : List (String × JValue) → String → Option JValue
  | [], _ => none
  | (k, v) :: rest, key => if k = key then some v else dLookup rest key

/-- Python `dict.get(key, default)`. -/
def dGet (fields : List (String × JValue)) (key : String) (dflt : JValue) : JValue :=
  (dLookup fields key).getD dflt

/-- Python `value == s` where `s` is a `str`: true exactly when the value
is that very string (applied to the result of `dict.get`, where a missing
key yields `None`, which is never equal to a string). -/
def pyEqStr : Option JValue → String → Bool
  | some (.str s), t => s == t
  | _, _ => false

/-- Python truthiness of a JSON value. -/
def pyTruthy : JValue → Bool
  | .str s => !s.isEmpty
  | .num n => n != 0
  | .bool b => b
  | .null => false
  | .list xs => !xs.isEmpty
  | .obj fs => !fs.isEmpty

/-- Python `len`: defined on strings, lists and dicts; raises `TypeError`
on numbers, booleans and `None`. -/
def pyLen : JValue → Except String Nat
  | .str s => .ok s.length
  | .list xs => .ok xs.length
  | .obj fs => .ok fs.length
  | _ => .error "object has no len()"

/-- Python `str.strip()` with no arguments: remove leading and trailing
whitespace.  Defined by direct list recursion so that concrete instances
evaluate by kernel reduction. -/
def pyStrip (s : String) : String :=
  String.mk (((s.toList.dropWhile Char.isWhitespace).reverse.dropWhile
    Char.isWhitespace).reverse)

/-- Python iteration `for x in v`: lists yield elements, dicts yield their
keys, strings yield one-character strings; numbers, booleans and `None`
raise `TypeError`. -/
def iterElems : JValue → Except String (List JValue)
  | .list xs => .ok xs
  | .obj fs => .ok (fs.map (fun p => JValue.str p.1))
  | .str s => .ok (s.toList.map (fun c => JValue.str (String.singleton c)))
  | _ => .error "object is not iterable"

mutual

/-- A JSON serializer standing for `json.dumps(v, ensure_ascii=False, indent=2)`
in the source (the exact whitespace layout of the Python serializer is not
reproduced; no claim depends on it, only on which value gets dumped). -/
def jsonDumps : JValue → String
  | .str s => "\x22" ++ s ++ "\x22"
  | .num n => toString n
  | .bool b => if b then "true" else "false"
  | .null => "null"
  | .list xs => "[" ++ jsonDumpsList xs ++ "]"
  | .obj fs => "\x7b" ++ jsonDumpsObj fs ++ "\x7d"

def jsonDumpsList : List JValue → String
  | [] => ""
  | [x] => jsonDumps x
  | x :: y :: xs => jsonDumps x ++ ", " ++ jsonDumpsList (y :: xs)

def jsonDumpsObj : List (String × JValue) → String
  | [] => ""
  | [(k, v)] => "\x22" ++ k ++ "\x22: " ++ jsonDumps v
  | (k, v) :: f :: fs => "\x22" ++ k ++ "\x22: " ++ jsonDumps v ++ ", " ++ jsonDumpsObj (f :: fs)

end

/-! ## Transport: the retry loop of `_make_request` / `_make_sync_request`

Each loop iteration of the Python source performs one HTTP attempt.  Its
outcome is either: a 2xx response with a parsed JSON body (`success`); a
well-formed non-2xx response, on which `response.raise_for_status()` raises
`httpx.HTTPStatusError` — a subclass of `httpx.HTTPError` (`httpStatus`); a
connection failure (`connError`); a timeout (`timeoutError`); or any other
exception, e.g. a JSON decode failure of the body (`otherError`).  The
source catches the tuple `(httpx.HTTPError, httpx.ConnectError,
httpx.TimeoutException)` — which contains `HTTPStatusError` — as the
retryable case, and any other exception in a second handler that re-raises
immediately. -/

inductive AttemptOutcome where
  | success (v : JValue)
  | httpStatus (code : Nat) (msg : String)
  | connError (msg : String)
  | timeoutError (msg : String)
  | otherError (msg : String)

/-- Outcomes caught by the first `except` clause of the source, i.e. the
tuple `(httpx.HTTPError, httpx.ConnectError, httpx.TimeoutException)`.
Note `httpx.HTTPStatusError` is a subclass of `httpx.HTTPError`, so a
well-formed non-2xx response lands in this clause. -/
def isRetryable : AttemptOutcome → Bool
  | .httpStatus _ _ => true
  | .connError _ => true
  | .timeoutError _ => true
  | _ => false

/-- The message `str(e)` of the exception an outcome raises. -/
def outcomeMsg : AttemptOutcome → String
  | .success _ => ""
  | .httpStatus _ m => m
  | .connError m => m
  | .timeoutError m => m
  | .otherError m => m

/-- Observable trace of one Transport call: the returned value or raised
message, the number of HTTP attempts performed, and the total seconds
spent in the fixed 1-second sleeps between retries. -/
structure ReqTrace where
  result : Except String JValue
  attempts : Nat
  sleeps : Nat

/-- The body of the `for attempt in range(max_retries)` loop, recursing on
the number of remaining iterations (`remaining = max_retries - attempt`).
`attempt = max_retries - 1` in the source corresponds to `remaining = 1`
here, where a retryable failure raises instead of sleeping.  The fuel-0
case is unreachable from `make_sync_request` since every last-iteration
branch returns or raises. -/
def requestFrom (outcomeAt : Nat → AttemptOutcome) (attempt : Nat) : Nat → ReqTrace
  | 0 => ⟨.error "loop exhausted", 0, 0⟩
  | remaining + 1 =>
    match outcomeAt attempt with
    | .success v => ⟨.ok v, 1, 0⟩
    | .otherError m => ⟨.error ("处理错误: " ++ m), 1, 0⟩
    | .httpStatus _ m =>
      if remaining = 0 then ⟨.error ("请求失败: " ++ m), 1, 0⟩
      else
        let t := requestFrom outcomeAt (attempt + 1) remaining
        ⟨t.result, t.attempts + 1, t.sleeps + 1⟩
    | .connError m =>
      if remaining = 0 then ⟨.error ("请求失败: " ++ m), 1, 0⟩
      else
        let t := requestFrom outcomeAt (attempt + 1) remaining
        ⟨t.result, t.attempts + 1, t.sleeps + 1⟩
    | .timeoutError m =>
      if remaining = 0 then ⟨.error ("请求失败: " ++ m), 1, 0⟩
      else
        let t := requestFrom outcomeAt (attempt + 1) remaining
        ⟨t.result, t.attempts + 1, t.sleeps + 1⟩

/-- `MessageServiceClient._make_sync_request` with `max_retries = 3`:
`outcomeAt i` is the outcome of the HTTP attempt performed in loop
iteration `i`. -/
def make_sync_request (outcomeAt : Nat → AttemptOutcome) : ReqTrace :=
  requestFrom outcomeAt 0 3

/-- `MessageServiceClient._make_request` has the same retry control flow
as `_make_sync_request` (the only differences are async execution and
client-object lifecycle, which do not affect the observable trace). -/
def make_request (outcomeAt : Nat → AttemptOutcome) : ReqTrace :=
  make_sync_request outcomeAt

/-! ## Feed Consistency Guard: `validate_post_id_in_subscribed_topics`

The source fetches the user feed (GET on the received-requests path of the user) and
searches it for `post_id`.  The whole body sits in a `try` whose `except`
returns `(False, "", "")`, so any raised exception — a failed fetch as well
as an internal `TypeError` — yields the fail-closed triple.  The feed fetch
itself is abstracted as an `Except String JValue` argument (`.error` means
the request raised); identity resolution only chooses which URL is fetched
and is absorbed into that argument. -/

/-- Result triple `(allowed, topic, preview)` of the guard.  The topic is
whatever Python value `req.get("topic", "")` produced, hence a `JValue`. -/
structure GuardResult where
  allowed : Bool
  topic : JValue
  preview : String

/-- Python `req.get("content", "")[:50] + "..."`: slicing a string works
and appending the ellipsis marker works; on any non-string value the
expression raises `TypeError` (slicing a number or dict raises; slicing a
list yields a list which cannot be concatenated with a string). -/
def contentPreview : JValue → Except String String
  | .str s => .ok (String.mk (s.toList.take 50) ++ "...")
  | _ => .error "TypeError in content preview"

/-- Loop of the dict-shaped branch of `validate_post_id_in_subscribed_topics`:
iterate over the entries found under the `requests` key, matching only on
the `request_id` field. -/
def scanRequestsDict (postId : String) : List JValue → Except String GuardResult
  | [] => .ok ⟨false, .str "", ""⟩
  | req :: rest =>
    match req with
    | .obj fs =>
      if pyEqStr (dLookup fs "request_id") postId then
        match contentPreview (dGet fs "content" (.str "")) with
        | .ok p => .ok ⟨true, dGet fs "topic" (.str ""), p⟩
        | .error e => .error e
      else scanRequestsDict postId rest
    | _ => scanRequestsDict postId rest

/-- Loop of the list-shaped branch of `validate_post_id_in_subscribed_topics`:
iterate over the list elements, matching on the `id` or the `request_id`
field. -/
def scanRequestsList (postId : String) : List JValue → Except String GuardResult
  | [] => .ok ⟨false, .str "", ""⟩
  | req :: rest =>
    match req with
    | .obj fs =>
      if pyEqStr (dLookup fs "id") postId || pyEqStr (dLookup fs "request_id") postId then
        match contentPreview (dGet fs "content" (.str "")) with
        | .ok p => .ok ⟨true, dGet fs "topic" (.str ""), p⟩
        | .error e => .error e
      else scanRequestsList postId rest
    | _ => scanRequestsList postId rest

/-- Body of `validate_post_id_in_subscribed_topics` after a successful feed
fetch, before the enclosing `except`.  A dict response is searched under
its `requests` key (iterating whatever value sits there, as the source
does with a bare `for` loop); a list response is searched directly; any
other response shape falls through to `return False, "", ""`. -/
def validateCore (postId : String) (resp : JValue) : Except String GuardResult :=
  match resp with
  | .obj fs =>
    match iterElems (dGet fs "requests" (.list [])) with
    | .ok elems => scanRequestsDict postId elems
    | .error e => .error e
  | .list xs => scanRequestsList postId xs
  | _ => .ok ⟨false, .str "", ""⟩

/-- `validate_post_id_in_subscribed_topics(post_id)`: the `fetch` argument
is the outcome of the feed request; the surrounding `try`/`except` maps
every raised exception to the fail-closed result. -/
def validate_post_id_in_subscribed_topics (postId : String)
    (fetch : Except String JValue) : GuardResult :=
  match fetch with
  | .error _ => ⟨false, .str "", ""⟩
  | .ok resp =>
    match validateCore postId resp with
    | .ok r => r
    | .error _ => ⟨false, .str "", ""⟩

/-- Modelled from the claim wording (refinement reference): an entry
matches the post id when either of the two accepted identifier field
names, `id` or `request_id`, holds it. -/
def matchesIdentifier (req : JValue) (postId : String) : Bool :=
  match req with
  | .obj fs => pyEqStr (dLookup fs "id") postId || pyEqStr (dLookup fs "request_id") postId
  | _ => false

/-- An entry matches under the `request_id` field only (what the
dict-shaped branch of the source actually checks). -/
def matchesRequestId (req : JValue) (postId : String) : Bool :=
  match req with
  | .obj fs => pyEqStr (dLookup fs "request_id") postId
  | _ => false

/-- A feed entry whose `content` field, when present, is a string — the
shape the server contract intends, under which the preview slice cannot
raise. -/
def contentOk (req : JValue) : Bool :=
  match req with
  | .obj fs =>
    match dLookup fs "content" with
    | some (.str _) => true
    | none => true
    | some _ => false
  | _ => true

/-- The string content of an entry, as the preview computation sees it:
`req.get("content", "")` when that is a string. -/
def contentStrOf (fs : List (String × JValue)) : String :=
  match dGet fs "content" (.str "") with
  | .str s => s
  | _ => ""

/-! ## Publish paths

The UI publish functions perform one network call each; the model records
the submitted payload as an `Option` (`none` = no Transport request was
issued) alongside the returned message string.  The resolved user id
(`user_manager.get_or_create_user_id`) is passed in explicitly. -/

/-- Payload of `POST /responses/publish`. -/
structure PublishResponseCall where
  user_id : String
  request_id : String
  content : String

/-- Payload of `POST /requests/publish`; the title key is present only
when the title argument is truthy after stripping. -/
structure PublishRequestCall where
  user_id : String
  topic : String
  content : String
  title : Option String

/-- `publish_response_ui(request_id, content, user_id)`: always issues the
publish request; its `try`/`except` turns a raised exception into an
error message, so the function itself never raises. -/
def publish_response_ui (userId requestId content : String)
    (net : Except String JValue) : String × Option PublishResponseCall :=
  ( match net with
    | .ok v => "💬 用户 " ++ String.mk (userId.toList.take 8) ++ "... 回复发布成功! " ++ jsonDumps v
    | .error e => "❌ 应答发布失败: " ++ e,
    some ⟨userId, requestId, content⟩ )

/-- `publish_request_ui(topic, title, content, user_id)`: builds the
payload (title included only when `title.strip()` is truthy) and always
issues the publish request. -/
def publish_request_ui (userId topic title content : String)
    (net : Except String JValue) : String × Option PublishRequestCall :=
  ( match net with
    | .ok v => "🚀 用户 " ++ String.mk (userId.toList.take 8) ++ "... 帖子发布成功! " ++ jsonDumps v
    | .error e => "❌ 发布失败: " ++ e,
    some ⟨userId, topic, content, if (pyStrip title).isEmpty then none else some title⟩ )

/-- `sync_publish_request(topic, title, content)`: rejects blank topic or
content before any network call, otherwise delegates to
`publish_request_ui` with the stripped arguments. -/
def sync_publish_request (topic title content : String) (userId : String)
    (net : Except String JValue) : String × Option PublishRequestCall :=
  if (pyStrip topic).isEmpty || (pyStrip content).isEmpty then
    ("❌ 请选择话题并输入帖子内容", none)
  else
    publish_request_ui userId (pyStrip topic) (pyStrip title) (pyStrip content) net

/-- `sync_publish_response(request_id, content)`: rejects blank id or
content before any network call, otherwise delegates to
`publish_response_ui` with the stripped arguments (no feed guard on this
path). -/
def sync_publish_response (requestId content : String) (userId : String)
    (net : Except String JValue) : String × Option PublishResponseCall :=
  if (pyStrip requestId).isEmpty || (pyStrip content).isEmpty then
    ("❌ 请输入帖子ID和回复内容", none)
  else
    publish_response_ui userId (pyStrip requestId) (pyStrip content) net

/-- `str(topic)` as interpolated into the validation success message. -/
def pyStr : JValue → String
  | .str s => s
  | v => jsonDumps v

/-- `sync_publish_response_with_validation(request_id, content)`: blank
check, then the Feed Consistency Guard on `request_id.strip()`; only when
the guard allows does it call `publish_response_ui`.  `feedFetch` is the
outcome of the guard feed request and `net` the outcome of the publish
request, were it issued. -/
def sync_publish_response_with_validation (requestId content : String)
    (userId : String) (feedFetch : Except String JValue)
    (net : Except String JValue) : String × Option PublishResponseCall :=
  if (pyStrip requestId).isEmpty || (pyStrip content).isEmpty then
    ("❌ 请输入帖子ID和回复内容", none)
  else
    let g := validate_post_id_in_subscribed_topics (pyStrip requestId) feedFetch
    if !g.allowed then
      ("❌ 帖子ID \x27" ++ requestId ++ "\x27 不在你关注的话题中，或者帖子不存在。请检查ID是否正确，或者确保你已经订阅了相关话题。", none)
    else
      let r := publish_response_ui userId (pyStrip requestId) (pyStrip content) net
      ("✅ 验证通过！正在回复话题 \x27" ++ pyStr g.topic ++ "\x27 中的帖子\n预览: " ++ g.preview ++ "\n\n" ++ r.1, r.2)

/-- The `publish_response` branch of `handle_call_tool`: calls
`publish_response_ui` directly, with no blank check and no feed guard
(its `try`/`except` is dead since `publish_response_ui` never raises). -/
def handle_publish_response_tool (requestId content : String) (userId : String)
    (net : Except String JValue) : String × Option PublishResponseCall :=
  publish_response_ui userId requestId content net

/-! ## Combined user-info view: `get_user_info_ui`

The four sub-fetches (subscriptions, own posts, feed, received replies)
run sequentially inside one `try`; the first raised exception aborts the
whole body and the `except` returns the failure message, so no partial
view is ever produced.  The model takes the four fetch outcomes and
returns either the assembled view or the failure message. -/

/-- The assembled user-info record (the fields of the `info` dict whose
values depend on the four responses; counts are whatever Python values
the `.get` calls produced, hence `JValue`). -/
structure UserInfoView where
  subscriptionCount : JValue
  publishedPostsCount : JValue
  feedPostsCount : JValue
  receivedRepliesCount : JValue
  subscriptionList : JValue
  rawSubscriptions : JValue
  rawRequests : JValue
  rawFeed : JValue
  rawReceivedReplies : JValue

/-- Subscription-count extraction of `get_user_info_ui`: dict responses
read `subscription_count` and `subscriptions`, list responses use their
length and themselves, anything else keeps the initial zero and empty
list. -/
def extractSubscriptions (resp : JValue) : JValue × JValue :=
  match resp with
  | .obj fs => (dGet fs "subscription_count" (.num 0), dGet fs "subscriptions" (.list []))
  | .list xs => (.num xs.length, .list xs)
  | _ => (.num 0, .list [])

/-- Count extraction used for the other three responses: dict responses
read the given count key, list responses use their length, anything else
keeps the initial zero. -/
def extractCount (key : String) (resp : JValue) : JValue :=
  match resp with
  | .obj fs => dGet fs key (.num 0)
  | .list xs => .num xs.length
  | _ => .num 0

/-- `get_user_info_ui`: the arguments are the outcomes of the four
sub-fetches in source order (subscriptions, own requests, received
requests, received responses).  `.error m` is the string returned by the
`except` branch. -/
def get_user_info_ui (subsFetch reqsFetch feedFetch repliesFetch :
    Except String JValue) : Except String UserInfoView :=
  match subsFetch with
  | .error e => .error ("❌ 获取用户信息失败: " ++ e)
  | .ok subs =>
    match reqsFetch with
    | .error e => .error ("❌ 获取用户信息失败: " ++ e)
    | .ok reqs =>
      match feedFetch with
      | .error e => .error ("❌ 获取用户信息失败: " ++ e)
      | .ok feed =>
        match repliesFetch with
        | .error e => .error ("❌ 获取用户信息失败: " ++ e)
        | .ok replies =>
          let sub := extractSubscriptions subs
          .ok ⟨sub.1, extractCount "request_count" reqs,
               extractCount "message_count" feed,
               extractCount "message_count" replies,
               sub.2, subs, reqs, feed, replies⟩

/-- Whether an `Except` is a success. -/
def isOkB : Except String α → Bool
  | .ok _ => true
  | .error _ => false

/-! ## Presentation Adapter: `get_my_requests_ui` / `get_subscribed_requests_ui`

Each function fetches a list-like response and normalizes it: strings pass
through behind a caption, falsy values yield an empty-state message,
lists are mapped entry-wise (dict entries to a fixed display record,
non-dict entries unchanged) and dumped, and any other value is dumped
as-is.  The whole body sits in a `try` whose `except` returns a failure
message, so the function itself never raises — but the `len` call inside
the emptiness test raises `TypeError` on truthy non-sized values, which
therefore surface as the failure message rather than a pass-through. -/

/-- A normalized return value: either a directly returned string or the
`json.dumps` of a value. -/
inductive NormOut where
  | text (s : String)
  | dumped (v : JValue)

/-- Entry mapping of the `get_my_requests_ui` list branch: dict entries
become the fixed display record, non-dict entries are appended
unchanged. -/
def mapMyRequestEntry : JValue → JValue
  | .obj fs => .obj [("帖子ID", dGet fs "id" (.str "N/A")),
                     ("标题", dGet fs "title" (.str "无标题")),
                     ("内容", dGet fs "content" (.str "")),
                     ("话题", dGet fs "topic" (.str "")),
                     ("发布时间", dGet fs "created_at" (.str "")),
                     ("状态", dGet fs "status" (.str ""))]
  | r => r

/-- Entry mapping of the `get_subscribed_requests_ui` list branch. -/
def mapSubscribedEntry : JValue → JValue
  | .obj fs => .obj [("帖子ID", dGet fs "id" (.str "N/A")),
                     ("标题", dGet fs "title" (.str "无标题")),
                     ("内容", dGet fs "content" (.str "")),
                     ("话题", dGet fs "topic" (.str "")),
                     ("发布者", dGet fs "user_id" (.str "")),
                     ("发布时间", dGet fs "created_at" (.str "")),
                     ("状态", dGet fs "status" (.str ""))]
  | r => r

/-- The normalization body shared by the two read operations, parametrized
by the caption texts and the entry mapping; mirrors the source statement
order: string check, `not requests or len(requests) == 0`, list
formatting, JSON dump fallback. -/
def normalizeListing (caption emptyMsg : String) (mapEntry : JValue → JValue) :
    JValue → Except String NormOut
  | .str s => .ok (.text (caption ++ s))
  | v =>
    if !pyTruthy v then .ok (.text emptyMsg)
    else
      match pyLen v with
      | .error e => .error e
      | .ok n =>
        if n = 0 then .ok (.text emptyMsg)
        else
          match v with
          | .list xs => .ok (.dumped (.list (xs.map mapEntry)))
          | w => .ok (.dumped w)

/-- Normalization of `get_my_requests_ui` after a successful fetch. -/
def normalize_my_requests : JValue → Except String NormOut :=
  normalizeListing "📝 我的帖子:\n" "📝 你还没有发布任何帖子" mapMyRequestEntry

/-- Normalization of `get_subscribed_requests_ui` after a successful
fetch. -/
def normalize_subscribed_requests : JValue → Except String NormOut :=
  normalizeListing "📥 你的个人Feed:\n" "📥 你的Feed中暂无新帖子" mapSubscribedEntry

/-- `get_my_requests_ui`: fetch plus normalization, with the enclosing
`try`/`except` mapping any raised exception to the failure message. -/
def get_my_requests_ui (fetch : Except String JValue) : NormOut :=
  match fetch with
  | .error e => .text ("❌ 获取我的需求失败: " ++ e)
  | .ok v =>
    match normalize_my_requests v with
    | .ok o => o
    | .error e => .text ("❌ 获取我的需求失败: " ++ e)

/-- `get_subscribed_requests_ui`: fetch plus normalization, with the
enclosing `try`/`except` mapping any raised exception to the failure
message. -/
def get_subscribed_requests_ui (fetch : Except String JValue) : NormOut :=
  match fetch with
  | .error e => .text ("❌ 获取订阅需求失败: " ++ e)
  | .ok v =>
    match normalize_subscribed_requests v with
    | .ok o => o
    | .error e => .text ("❌ 获取订阅需求失败: " ++ e)

/-- A value is a Python dict. -/
def isObj : JValue → Bool
  | .obj _ => true
  | _ => false

/-! ## Identity resolver: `UserManager.get_or_create_user_id`

State is the pair of the `default_user_id` attribute and the
`session_users` dict (insertion-ordered association list).  Nondeterministic
inputs of the source — `time.time()` and `uuid.uuid4()` — are passed in as
arguments `now` and `freshId`. -/

/-- One `session_users` record. -/
structure UserRecord where
  user_id : String
  created_at : Nat
  display_name : String

/-- The mutable state of `UserManager`. -/
structure UserManagerState where
  default_user_id : Option String
  session_users : List (String × UserRecord)

/-- State of a freshly constructed `UserManager`. -/
def initialUserManager : UserManagerState := ⟨none, []⟩

/-- Lookup in the `session_users` dict. -/
def findUser : List (String × UserRecord) → String → Option UserRecord
  | [], _ => none
  | (k, v) :: rest, key => if k = key then some v else findUser rest key

/-- Python truthiness of the `default_user_id` attribute (`None` and the
empty string are falsy). -/
def truthyOptStr : Option String → Bool
  | some s => !s.isEmpty
  | none => false

/-- The `else` branch of `get_or_create_user_id`: reuse a truthy
`default_user_id`, otherwise generate one, register it and remember it. -/
def defaultUserBranch (now : Nat) (freshId : String) (st : UserManagerState) :
    String × UserManagerState :=
  match st.default_user_id with
  | some d =>
    if d.isEmpty then
      (freshId, ⟨some freshId,
        st.session_users ++ [(freshId, ⟨freshId, now, "临时用户_" ++ String.mk (freshId.toList.take 8)⟩)]⟩)
    else (d, st)
  | none =>
    (freshId, ⟨some freshId,
      st.session_users ++ [(freshId, ⟨freshId, now, "临时用户_" ++ String.mk (freshId.toList.take 8)⟩)]⟩)

/-- `UserManager.get_or_create_user_id(provided_user_id)`: a truthy
provided id is returned unchanged, registered on first sight; a falsy one
(`None` or the empty string) falls back to the lazily created default
identity. -/
def get_or_create_user_id (provided : Option String) (now : Nat)
    (freshId : String) (st : UserManagerState) : String × UserManagerState :=
  match provided with
  | some s =>
    if s.isEmpty then defaultUserBranch now freshId st
    else
      match findUser st.session_users s with
      | none =>
        (s, ⟨st.default_user_id,
          st.session_users ++ [(s, ⟨s, now, "用户_" ++ String.mk (s.toList.take 8)⟩)]⟩)
      | some _ => (s, st)
  | none => defaultUserBranch now freshId st

/-! ## Stats: `get_stats_ui` and the `get_stats` tool branch -/

/-- `get_stats_ui`: dumps the stats response, or returns a failure message
from its own `except` handler — so the function never raises. -/
def get_stats_ui (fetch : Except String JValue) : NormOut :=
  match fetch with
  | .ok v => .dumped v
  | .error e => .text ("❌ 获取统计信息失败: " ++ e)

/-- `get_stats_ui` as a callee of the tool dispatcher: its whole body is
inside `try`/`except`, so viewed from the caller it always returns
normally (never raises) — hence always `.ok`. -/
def get_stats_ui_call (fetch : Except String JValue) : Except String NormOut :=
  .ok (get_stats_ui fetch)

/-- The local fallback dict built in the `except` branch of the
`get_stats` tool handler. -/
def local_stats_snapshot (sessionUsers : Nat) : JValue :=
  .obj [("status", .str "partial"),
        ("message", .str "外部服务不可用，显示本地信息"),
        ("local_stats", .obj [("mcp_server", .str "运行中"),
                              ("session_users", .num sessionUsers),
                              ("service_status", .str "MCP服务运行中")])]

/-- The `get_stats` branch of `handle_call_tool`: try `get_stats_ui`,
fall back to the local snapshot only if it raises. -/
def handle_get_stats_tool (fetch : Except String JValue) (sessionUsers : Nat) : NormOut :=
  match get_stats_ui_call fetch with
  | .ok s => s
  | .error _ => .dumped (local_stats_snapshot sessionUsers)

/-! ## Helper lemmas -/

/-- Concrete attempt sequence exercising the amended retry behaviour: a
non-2xx response on every attempt. -/
def allServerErrors : Nat → AttemptOutcome := fun _ => .httpStatus 500 "Server error 500"

/-- Attempt sequence with a single non-2xx response followed by
successes. -/
def status404ThenOk : Nat → AttemptOutcome :=
  fun i => if i = 0 then .httpStatus 404 "Client error 404" else .success (.str "ok")

/-- C1 counterexample: with a well-formed 404 response on the first
attempt and a 2xx response on the second, the call does not fail at the
404 — a further attempt is made (two attempts in total) and the call
returns the second response, because `raise_for_status` raises
`httpx.HTTPStatusError`, which the retryable `except` clause catches. -/
theorem transport_non2xx_retried_counterexample :
    isRetryable (status404ThenOk 0) = true ∧
    (make_sync_request status404ThenOk).result = .ok (.str "ok") ∧
    (make_sync_request status404ThenOk).attempts = 2 :=
  ⟨rfl, rfl, rfl⟩

/-- C1 amended: a well-formed non-2xx response raises
`httpx.HTTPStatusError`, a subclass of `httpx.HTTPError`, so it is
retried exactly like a connection failure: after a non-2xx response on
the first attempt at least one further attempt (after a 1 second sleep)
is made; three consecutive non-2xx responses exhaust the 3 attempts and
raise the generic request-failure message built from the last exception
rather than a structured status-and-body error; only an exception outside
the httpx family fails immediately without retry. -/
theorem transport_retries_non2xx_amended (f : Nat → AttemptOutcome) :
    (∀ c m, f 0 = .httpStatus c m →
       2 ≤ (make_sync_request f).attempts ∧ 1 ≤ (make_sync_request f).sleeps) ∧
    (∀ c0 m0 c1 m1 c2 m2, f 0 = .httpStatus c0 m0 → f 1 = .httpStatus c1 m1 →
       f 2 = .httpStatus c2 m2 →
       make_sync_request f = ⟨.error ("请求失败: " ++ m2), 3, 2⟩) ∧
    (∀ m, f 0 = .otherError m →
       make_sync_request f = ⟨.error ("处理错误: " ++ m), 1, 0⟩) := by
  refine ⟨?_, ?_, ?_⟩
  · intro c m h0
    cases h1 : f 1 <;> cases h2 : f 2 <;>
      simp [make_sync_request, requestFrom, h0, h1, h2]
  · intro c0 m0 c1 m1 c2 m2 h0 h1 h2
    simp [make_sync_request, requestFrom, h0, h1, h2]
  · intro m h0
    simp [make_sync_request, requestFrom, h0]

/-- C1 amended witness at a concrete attempt sequence. -/
theorem transport_retries_non2xx_amended_witness :
    make_sync_request allServerErrors =
      ⟨.error ("请求失败: " ++ "Server error 500"), 3, 2⟩ :=
  (transport_retries_non2xx_amended allServerErrors).2.1 500 "Server error 500"
    500 "Server error 500" 500 "Server error 500" rfl rfl rfl

/-- C4: the Transport retry policy of `_make_sync_request` (and
`_make_request`, which shares the same control flow): at most 3 attempts
are ever made; a success on the first, second or third attempt returns
the parsed response with respectively 0, 1 or 2 seconds of fixed backoff
slept between the retryable failures; three retryable failures exhaust
the attempts and raise, having slept 1 second between each pair of
consecutive failed attempts. -/
theorem transport_retry_policy (f : Nat → AttemptOutcome) :
    (make_sync_request f).attempts ≤ 3 ∧
    (∀ v, f 0 = .success v → make_sync_request f = ⟨.ok v, 1, 0⟩) ∧
    (∀ v, isRetryable (f 0) = true → f 1 = .success v →
       make_sync_request f = ⟨.ok v, 2, 1⟩) ∧
    (∀ v, isRetryable (f 0) = true → isRetryable (f 1) = true → f 2 = .success v →
       make_sync_request f = ⟨.ok v, 3, 2⟩) ∧
    (isRetryable (f 0) = true → isRetryable (f 1) = true → isRetryable (f 2) = true →
       make_sync_request f = ⟨.error ("请求失败: " ++ outcomeMsg (f 2)), 3, 2⟩) := by
  refine ⟨?_, ?_, ?_, ?_, ?_⟩
  · cases h0 : f 0 <;> cases h1 : f 1 <;> cases h2 : f 2 <;>
      simp [make_sync_request, requestFrom, h0, h1, h2]
  · intro v h0
    simp [make_sync_request, requestFrom, h0]
  · intro v hr h1
    cases h0 : f 0 <;> simp [isRetryable, h0] at hr <;>
      simp [make_sync_request, requestFrom, h0, h1]
  · intro v hr0 hr1 h2
    cases h0 : f 0 <;> simp [isRetryable, h0] at hr0 <;>
      cases h1 : f 1 <;> simp [isRetryable, h1] at hr1 <;>
        simp [make_sync_request, requestFrom, h0, h1, h2]
  · intro hr0 hr1 hr2
    cases h0 : f 0 <;> simp [isRetryable, h0] at hr0 <;>
      cases h1 : f 1 <;> simp [isRetryable, h1] at hr1 <;>
        cases h2 : f 2 <;> simp [isRetryable, h2] at hr2 <;>
          simp [make_sync_request, requestFrom, outcomeMsg, h0, h1, h2]

/-- Attempt sequence with two connection failures followed by a
success. -/
def twoConnFailsThenOk : Nat → AttemptOutcome :=
  fun i => if i < 2 then .connError "Connection refused" else .success .null

/-- C4 witness: two connection failures, then success on the third
attempt: the call succeeds with 2 seconds of backoff. -/
theorem transport_retry_policy_witness :
    make_sync_request twoConnFailsThenOk = ⟨.ok .null, 3, 2⟩ :=
  (transport_retry_policy twoConnFailsThenOk).2.2.2.1 .null rfl rfl rfl

/-- The empty string is empty. -/
lemma emptyString_isEmpty : ("" : String).isEmpty = true := rfl

/-- C5: the combined user-info view is all-or-nothing — it succeeds
exactly when all four sub-fetches (subscriptions, own posts, feed,
received replies) succeed; a failure of any sub-fetch aborts the whole
aggregate with an error result, and no partial view is produced. -/
theorem user_info_aggregate_all_or_nothing (a b c d : Except String JValue) :
    isOkB (get_user_info_ui a b c d) = (isOkB a && isOkB b && isOkB c && isOkB d) := by
  cases a <;> cases b <;> cases c <;> cases d <;> rfl

/-- C6: both sync publish wrappers reject blank (empty or
whitespace-only) required arguments with a validation message and issue
no Transport request (the recorded payload is `none`). -/
theorem publish_blank_input_rejected_before_network :
    (∀ topic title content userId net, pyStrip topic = "" ∨ pyStrip content = "" →
       sync_publish_request topic title content userId net =
         ("❌ 请选择话题并输入帖子内容", none)) ∧
    (∀ requestId content userId net, pyStrip requestId = "" ∨ pyStrip content = "" →
       sync_publish_response requestId content userId net =
         ("❌ 请输入帖子ID和回复内容", none)) := by
  constructor
  · intro topic title content userId net h
    rcases h with h | h <;> simp [sync_publish_request, h, emptyString_isEmpty]
  · intro requestId content userId net h
    rcases h with h | h <;> simp [sync_publish_response, h, emptyString_isEmpty]

/-- C6 witness: a whitespace-only topic and a whitespace-only reply
content are both rejected without a network call. -/
theorem publish_blank_input_rejected_before_network_witness :
    sync_publish_request "  " "t" "hello" "u" (.ok .null) =
      ("❌ 请选择话题并输入帖子内容", none) ∧
    sync_publish_response "p1" " " "u" (.ok .null) =
      ("❌ 请输入帖子ID和回复内容", none) :=
  ⟨publish_blank_input_rejected_before_network.1 "  " "t" "hello" "u" (.ok .null)
      (Or.inl (by decide)),
   publish_blank_input_rejected_before_network.2 "p1" " " "u" (.ok .null)
      (Or.inr (by decide))⟩

/-- C10: the `get_stats` tool branch never reaches its local-stats
fallback, because `get_stats_ui` catches every exception itself and
returns the failure message as an ordinary value; so on a failed stats
fetch the caller receives that error message, not the partial local
snapshot the fallback (and its comment) intend. -/
theorem get_stats_fallback_unreachable :
    (∀ fetch sessionUsers, handle_get_stats_tool fetch sessionUsers = get_stats_ui fetch) ∧
    handle_get_stats_tool (.error "Connection refused") 2 =
      .text ("❌ 获取统计信息失败: Connection refused") ∧
    handle_get_stats_tool (.error "Connection refused") 2 ≠
      .dumped (local_stats_snapshot 2) := by
  refine ⟨fun fetch n => rfl, rfl, ?_⟩
  intro h
  rw [show handle_get_stats_tool (.error "Connection refused") 2 =
        .text ("❌ 获取统计信息失败: Connection refused") from rfl] at h
  exact NormOut.noConfusion h

/-- C2 counterexample: with an empty feed the guard rejects post id p1,
yet the `publish_response` branch of `handle_call_tool` still submits the
reply to the server — this entry point never consults the guard. -/
theorem reply_guard_bypassed_counterexample :
    (validate_post_id_in_subscribed_topics "p1" (.ok (.list []))).allowed = false ∧
    (handle_publish_response_tool "p1" "hi" "userC" (.ok .null)).2 =
      some ⟨"userC", "p1", "hi"⟩ :=
  ⟨rfl, rfl⟩

/-- C2 amended: the guard invariant holds on the validated UI path —
`sync_publish_response_with_validation` issues no publish request when
the Feed Consistency Guard rejects the (stripped) post id against the
feed fetched in the same request cycle, returning the guard-rejection
message when the inputs are non-blank — but the MCP `publish_response`
entry point submits the reply unconditionally, without consulting the
guard. -/
theorem reply_guard_enforced_only_on_validated_path_amended :
    (∀ requestId content userId feedFetch net,
       (validate_post_id_in_subscribed_topics (pyStrip requestId) feedFetch).allowed = false →
       (sync_publish_response_with_validation requestId content userId feedFetch net).2 =
         none) ∧
    (∀ requestId content userId feedFetch net,
       (validate_post_id_in_subscribed_topics (pyStrip requestId) feedFetch).allowed = false →
       pyStrip requestId ≠ "" → pyStrip content ≠ "" →
       (sync_publish_response_with_validation requestId content userId feedFetch net).1 =
         "❌ 帖子ID \x27" ++ requestId ++ "\x27 不在你关注的话题中，或者帖子不存在。请检查ID是否正确，或者确保你已经订阅了相关话题。") ∧
    (∀ requestId content userId net,
       (handle_publish_response_tool requestId content userId net).2 =
         some ⟨userId, requestId, content⟩) := by
  refine ⟨?_, ?_, ?_⟩
  · intro requestId content userId feedFetch net hg
    unfold sync_publish_response_with_validation
    split
    · rfl
    · simp [hg]
  · intro requestId content userId feedFetch net hg hid hc
    unfold sync_publish_response_with_validation
    rw [if_neg (by simp [String.isEmpty_iff, hid, hc])]
    simp [hg]
  · intro requestId content userId net
    rfl

/-- C2 amended witness: a concrete rejected reply on the validated path
issues no publish request and returns the rejection message. -/
theorem reply_guard_enforced_only_on_validated_path_amended_witness :
    (sync_publish_response_with_validation "p1" "hi" "u" (.ok (.list [])) (.ok .null)).2 =
      none ∧
    (sync_publish_response_with_validation "p1" "hi" "u" (.ok (.list [])) (.ok .null)).1 =
      "❌ 帖子ID \x27p1\x27 不在你关注的话题中，或者帖子不存在。请检查ID是否正确，或者确保你已经订阅了相关话题。" :=
  ⟨reply_guard_enforced_only_on_validated_path_amended.1 "p1" "hi" "u"
      (.ok (.list [])) (.ok .null) rfl,
   reply_guard_enforced_only_on_validated_path_amended.2.1 "p1" "hi" "u"
      (.ok (.list [])) (.ok .null) rfl (by decide) (by decide)⟩

/-- Appending a record keyed by a different name does not make a key
findable. -/
lemma findUser_append_single_ne (l : List (String × UserRecord)) (k : String)
    (v : UserRecord) (key : String) (h : findUser l key = none) (hk : k ≠ key) :
    findUser (l ++ [(k, v)]) key = none := by
  induction l with
  | nil => simp [findUser, hk]
  | cons p rest ih =>
    obtain ⟨pk, pv⟩ := p
    by_cases hpk : pk = key
    · simp [findUser, hpk] at h
    · simp [findUser, hpk] at h ⊢
      exact ih h

/-- C8: the ephemeral-registry identity resolver is total and behaves as
specified for genuine (non-empty) caller-supplied identities and for
omitted identities: a supplied identity is returned unchanged; on its
first use it is registered with first-seen metadata, on later uses the
state is untouched; an omitted identity resolves to the lazily created
process default, which once created is returned unchanged, with unchanged
state, by every later omitted-identity call. -/
theorem get_or_create_user_id_policy :
    (∀ s now freshId st, s ≠ "" →
       (get_or_create_user_id (some s) now freshId st).1 = s) ∧
    (∀ s now freshId st, s ≠ "" → findUser st.session_users s = none →
       (get_or_create_user_id (some s) now freshId st).2 =
         ⟨st.default_user_id, st.session_users ++
            [(s, ⟨s, now, "用户_" ++ String.mk (s.toList.take 8)⟩)]⟩) ∧
    (∀ s now freshId st r, s ≠ "" → findUser st.session_users s = some r →
       get_or_create_user_id (some s) now freshId st = (s, st)) ∧
    (∀ now freshId st now2 freshId2, freshId ≠ "" →
       get_or_create_user_id none now2 freshId2
           (get_or_create_user_id none now freshId st).2 =
         ((get_or_create_user_id none now freshId st).1,
          (get_or_create_user_id none now freshId st).2)) := by
  have hne : ∀ s : String, s ≠ "" → s.isEmpty = false := by
    intro s h
    cases he : s.isEmpty
    · rfl
    · exact absurd ((String.isEmpty_iff s).mp he) h
  refine ⟨?_, ?_, ?_, ?_⟩
  · intro s now freshId st h
    cases hf : findUser st.session_users s <;>
      simp [get_or_create_user_id, hne s h, hf]
  · intro s now freshId st h hf
    simp [get_or_create_user_id, hne s h, hf]
  · intro s now freshId st r h hf
    simp [get_or_create_user_id, hne s h, hf]
  · intro now freshId st now2 freshId2 hfresh
    cases hd : st.default_user_id with
    | none =>
      simp [get_or_create_user_id, defaultUserBranch, hd, hne freshId hfresh]
    | some d =>
      cases hde : d.isEmpty
      · simp [get_or_create_user_id, defaultUserBranch, hd, hde]
      · simp [get_or_create_user_id, defaultUserBranch, hd, hde, hne freshId hfresh]

/-- C8 witness: a freshly constructed manager registers a supplied
identity and reuses the generated default identity across omitted-id
calls. -/
theorem get_or_create_user_id_policy_witness :
    (get_or_create_user_id (some "alice") 7 "aaaa-bbbb" initialUserManager).1 =
      "alice" ∧
    get_or_create_user_id none 9 "cccc-dddd"
        (get_or_create_user_id none 7 "aaaa-bbbb" initialUserManager).2 =
      ((get_or_create_user_id none 7 "aaaa-bbbb" initialUserManager).1,
       (get_or_create_user_id none 7 "aaaa-bbbb" initialUserManager).2) :=
  ⟨get_or_create_user_id_policy.1 "alice" 7 "aaaa-bbbb" initialUserManager
      (by decide),
   get_or_create_user_id_policy.2.2.2 7 "aaaa-bbbb" initialUserManager 9 "cccc-dddd"
      (by decide)⟩

/-- C9: an empty-string caller id is falsy in Python, so the source
treats it exactly like an omitted id: the call resolves to the process
default identity, and no registry entry keyed by the empty string is ever
created by it. -/
theorem empty_string_user_id_treated_as_omitted :
    (∀ now freshId st, get_or_create_user_id (some "") now freshId st =
       get_or_create_user_id none now freshId st) ∧
    (∀ now freshId st, freshId ≠ "" → findUser st.session_users "" = none →
       findUser (get_or_create_user_id (some "") now freshId st).2.session_users
         "" = none) := by
  constructor
  · intro now freshId st
    rfl
  · intro now freshId st hfresh hf
    show findUser (defaultUserBranch now freshId st).2.session_users "" = none
    unfold defaultUserBranch
    cases hd : st.default_user_id with
    | none => exact findUser_append_single_ne _ _ _ _ hf hfresh
    | some d =>
      cases hde : d.isEmpty
      · simpa [hde] using hf
      · simpa [hde] using findUser_append_single_ne _ _ _ _ hf hfresh

/-- C9 witness: with an empty-string id on a fresh manager, the resolved
identity is the generated default and no empty-string key is
registered. -/
theorem empty_string_user_id_treated_as_omitted_witness :
    get_or_create_user_id (some "") 7 "aaaa-bbbb" initialUserManager =
      get_or_create_user_id none 7 "aaaa-bbbb" initialUserManager ∧
    findUser (get_or_create_user_id (some "") 7 "aaaa-bbbb"
        initialUserManager).2.session_users "" = none :=
  ⟨empty_string_user_id_treated_as_omitted.1 7 "aaaa-bbbb" initialUserManager,
   empty_string_user_id_treated_as_omitted.2 7 "aaaa-bbbb" initialUserManager
      (by decide) rfl⟩

/-- C7 counterexample: a truthy top-level JSON number (a shape outside
the four recognized ones) does not degrade to a lossless pass-through:
the emptiness test calls `len` on it, which raises `TypeError`, and the
enclosing handler turns that into the fetch-failure message — an error
result, not the `json.dumps` pass-through of the value. -/
theorem presentation_number_not_passed_through_counterexample :
    normalize_my_requests (.num 5) = .error "object has no len()" ∧
    get_my_requests_ui (.ok (.num 5)) =
      .text ("❌ 获取我的需求失败: object has no len()") ∧
    get_my_requests_ui (.ok (.num 5)) ≠ .dumped (.num 5) := by
  refine ⟨rfl, rfl, ?_⟩
  intro h
  rw [show get_my_requests_ui (.ok (.num 5)) =
        .text ("❌ 获取我的需求失败: object has no len()") from rfl] at h
  exact NormOut.noConfusion h

/-- C7 amended: on the four recognized input shapes — plain string,
list of dicts, list of non-dict entries, single aggregate object — the
normalizing read operations return a value without raising: strings pass
through behind a caption, non-empty lists are mapped entry-wise with
non-dict entries passed through unchanged, and dict inputs are returned
(dumped) as values; but a truthy top-level value outside these shapes
(e.g. a bare number) makes the internal `len` call raise, which surfaces
as an error message rather than a lossless pass-through. -/
theorem presentation_adapter_amended :
    (∀ s, normalize_my_requests (.str s) =
        .ok (.text ("📝 我的帖子:\n" ++ s)) ∧
      normalize_subscribed_requests (.str s) =
        .ok (.text ("📥 你的个人Feed:\n" ++ s))) ∧
    (∀ xs, (∃ o, normalize_my_requests (.list xs) = .ok o) ∧
      (∃ o, normalize_subscribed_requests (.list xs) = .ok o)) ∧
    (∀ xs, xs ≠ [] →
      normalize_my_requests (.list xs) =
        .ok (.dumped (.list (xs.map mapMyRequestEntry))) ∧
      normalize_subscribed_requests (.list xs) =
        .ok (.dumped (.list (xs.map mapSubscribedEntry)))) ∧
    (∀ r, isObj r = false → mapMyRequestEntry r = r ∧ mapSubscribedEntry r = r) ∧
    (∀ fs, (∃ o, normalize_my_requests (.obj fs) = .ok o) ∧
      (∃ o, normalize_subscribed_requests (.obj fs) = .ok o)) := by
  refine ⟨?_, ?_, ?_, ?_, ?_⟩
  · intro s
    exact ⟨rfl, rfl⟩
  · intro xs
    cases xs with
    | nil => exact ⟨⟨_, rfl⟩, ⟨_, rfl⟩⟩
    | cons x rest =>
      refine ⟨⟨.dumped (.list ((x :: rest).map mapMyRequestEntry)), ?_⟩,
              ⟨.dumped (.list ((x :: rest).map mapSubscribedEntry)), ?_⟩⟩ <;>
        simp [normalize_my_requests, normalize_subscribed_requests,
          normalizeListing, pyTruthy, pyLen]
  · intro xs hne
    cases xs with
    | nil => exact absurd rfl hne
    | cons x rest =>
      constructor <;>
        simp [normalize_my_requests, normalize_subscribed_requests,
          normalizeListing, pyTruthy, pyLen]
  · intro r hr
    cases r with
    | obj fs => simp [isObj] at hr
    | str s => exact ⟨rfl, rfl⟩
    | num n => exact ⟨rfl, rfl⟩
    | bool b => exact ⟨rfl, rfl⟩
    | null => exact ⟨rfl, rfl⟩
    | list xs => exact ⟨rfl, rfl⟩
  · intro fs
    cases fs with
    | nil => exact ⟨⟨_, rfl⟩, ⟨_, rfl⟩⟩
    | cons f rest =>
      refine ⟨⟨.dumped (.obj (f :: rest)), ?_⟩, ⟨.dumped (.obj (f :: rest)), ?_⟩⟩ <;>
        simp [normalize_my_requests, normalize_subscribed_requests,
          normalizeListing, pyTruthy, pyLen]

/-- C7 amended witness: a two-element list holding one dict and one bare
string normalizes to the mapped records with the non-dict entry passed
through unchanged. -/
theorem presentation_adapter_amended_witness :
    normalize_my_requests (.list [.obj [("id", .str "p1")], .str "loose"]) =
      .ok (.dumped (.list [mapMyRequestEntry (.obj [("id", .str "p1")]),
                           .str "loose"])) ∧
    mapMyRequestEntry (.str "loose") = .str "loose" := by
  have h1 := (presentation_adapter_amended.2.2.1
    [JValue.obj [("id", .str "p1")], .str "loose"] (by simp)).1
  have h2 := (presentation_adapter_amended.2.2.2.1 (.str "loose") rfl).1
  exact ⟨by simpa [h2] using h1, h2⟩

/-- A value is a Python list. -/
def isList : JValue → Bool
  | .list _ => true
  | _ => false

/-- On a well-formed entry the preview slice succeeds and yields the
first 50 characters of the content followed by the ellipsis marker. -/
lemma contentPreview_ok (fs : List (String × JValue))
    (h : contentOk (.obj fs) = true) :
    contentPreview (dGet fs "content" (.str "")) =
      .ok (String.mk ((contentStrOf fs).toList.take 50) ++ "...") := by
  cases hl : dLookup fs "content" with
  | none => simp [contentPreview, contentStrOf, dGet, hl]
  | some v =>
    cases v <;> simp [contentOk, hl] at h
    simp [contentPreview, contentStrOf, dGet, hl]

/-- A non-matching head entry is skipped by the list-branch scan. -/
lemma scanRequestsList_cons_skip (postId : String) (req : JValue)
    (rest : List JValue) (h : matchesIdentifier req postId = false) :
    scanRequestsList postId (req :: rest) = scanRequestsList postId rest := by
  cases req
  case obj fs =>
    simp only [matchesIdentifier] at h
    simp [scanRequestsList, h]
  all_goals simp [scanRequestsList]

/-- A matching well-formed head entry is returned by the list-branch
scan. -/
lemma scanRequestsList_cons_match (postId : String)
    (fs : List (String × JValue)) (rest : List JValue)
    (h : matchesIdentifier (.obj fs) postId = true)
    (hco : contentOk (.obj fs) = true) :
    scanRequestsList postId (.obj fs :: rest) =
      .ok ⟨true, dGet fs "topic" (.str ""),
           String.mk ((contentStrOf fs).toList.take 50) ++ "..."⟩ := by
  have hm : (pyEqStr (dLookup fs "id") postId ||
      pyEqStr (dLookup fs "request_id") postId) = true := h
  simp [scanRequestsList, hm, contentPreview_ok fs hco]

/-- A non-matching head entry is skipped by the dict-branch scan. -/
lemma scanRequestsDict_cons_skip (postId : String) (req : JValue)
    (rest : List JValue) (h : matchesRequestId req postId = false) :
    scanRequestsDict postId (req :: rest) = scanRequestsDict postId rest := by
  cases req
  case obj fs =>
    simp only [matchesRequestId] at h
    simp [scanRequestsDict, h]
  all_goals simp [scanRequestsDict]

/-- A matching well-formed head entry is returned by the dict-branch
scan. -/
lemma scanRequestsDict_cons_match (postId : String)
    (fs : List (String × JValue)) (rest : List JValue)
    (h : matchesRequestId (.obj fs) postId = true)
    (hco : contentOk (.obj fs) = true) :
    scanRequestsDict postId (.obj fs :: rest) =
      .ok ⟨true, dGet fs "topic" (.str ""),
           String.mk ((contentStrOf fs).toList.take 50) ++ "..."⟩ := by
  have hm : pyEqStr (dLookup fs "request_id") postId = true := h
  simp [scanRequestsDict, hm, contentPreview_ok fs hco]

/-- Characterization of the list-branch scan on a well-formed feed: it
always succeeds, its verdict is exactly the existence of an entry
matching on `id` or `request_id`, a negative verdict carries the empty
triple, and a positive verdict carries the topic and
truncated preview. -/
lemma scanRequestsList_spec (postId : String) : ∀ (xs : List JValue),
    (∀ r ∈ xs, contentOk r = true) →
    ∃ g, scanRequestsList postId xs = .ok g ∧
      (g.allowed = true ↔ ∃ r ∈ xs, matchesIdentifier r postId = true) ∧
      (g.allowed = false → g = ⟨false, .str "", ""⟩) ∧
      (g.allowed = true → ∃ fs, JValue.obj fs ∈ xs ∧
        matchesIdentifier (.obj fs) postId = true ∧
        g = ⟨true, dGet fs "topic" (.str ""),
             String.mk ((contentStrOf fs).toList.take 50) ++ "..."⟩) := by
  intro xs
  induction xs with
  | nil =>
    intro h
    refine ⟨⟨false, .str "", ""⟩, rfl, ?_, fun _ => rfl, ?_⟩
    · simp
    · intro hT
      simp at hT
  | cons req rest ih =>
    intro h
    have hreq : contentOk req = true := h req (List.mem_cons_self req rest)
    have hrest : ∀ r ∈ rest, contentOk r = true :=
      fun r hr => h r (List.mem_cons_of_mem _ hr)
    obtain ⟨g, hg, hiff, hF, hT⟩ := ih hrest
    by_cases hm : matchesIdentifier req postId = true
    · cases req with
      | obj fs =>
        refine ⟨⟨true, dGet fs "topic" (.str ""),
            String.mk ((contentStrOf fs).toList.take 50) ++ "..."⟩,
          scanRequestsList_cons_match postId fs rest hm hreq, ?_, ?_, ?_⟩
        · simp only [show (⟨true, dGet fs "topic" (.str ""),
              String.mk ((contentStrOf fs).toList.take 50) ++ "..."⟩ :
              GuardResult).allowed = true from rfl, true_iff]
          exact ⟨.obj fs, List.mem_cons_self _ _, hm⟩
        · intro hbad
          simp at hbad
        · intro _
          exact ⟨fs, List.mem_cons_self _ _, hm, rfl⟩
      | str s => simp [matchesIdentifier] at hm
      | num n => simp [matchesIdentifier] at hm
      | bool b => simp [matchesIdentifier] at hm
      | null => simp [matchesIdentifier] at hm
      | list l => simp [matchesIdentifier] at hm
    · have hm2 : matchesIdentifier req postId = false := by
        cases hmv : matchesIdentifier req postId
        · rfl
        · exact absurd hmv hm
      refine ⟨g, ?_, ?_, hF, ?_⟩
      · rw [scanRequestsList_cons_skip postId req rest hm2]
        exact hg
      · rw [hiff]
        constructor
        · rintro ⟨r, hr, hmr⟩
          exact ⟨r, List.mem_cons_of_mem _ hr, hmr⟩
        · rintro ⟨r, hr, hmr⟩
          rcases List.mem_cons.mp hr with rfl | hr2
          · exact absurd hmr hm
          · exact ⟨r, hr2, hmr⟩
      · intro hgT
        obtain ⟨fs2, hmem, hm2b, hgeq⟩ := hT hgT
        exact ⟨fs2, List.mem_cons_of_mem _ hmem, hm2b, hgeq⟩

/-- Characterization of the dict-branch scan on a well-formed feed:
identical to the list branch except that only the `request_id` field is
consulted. -/
lemma scanRequestsDict_spec (postId : String) : ∀ (xs : List JValue),
    (∀ r ∈ xs, contentOk r = true) →
    ∃ g, scanRequestsDict postId xs = .ok g ∧
      (g.allowed = true ↔ ∃ r ∈ xs, matchesRequestId r postId = true) ∧
      (g.allowed = false → g = ⟨false, .str "", ""⟩) ∧
      (g.allowed = true → ∃ fs, JValue.obj fs ∈ xs ∧
        matchesRequestId (.obj fs) postId = true ∧
        g = ⟨true, dGet fs "topic" (.str ""),
             String.mk ((contentStrOf fs).toList.take 50) ++ "..."⟩) := by
  intro xs
  induction xs with
  | nil =>
    intro h
    refine ⟨⟨false, .str "", ""⟩, rfl, ?_, fun _ => rfl, ?_⟩
    · simp
    · intro hT
      simp at hT
  | cons req rest ih =>
    intro h
    have hreq : contentOk req = true := h req (List.mem_cons_self req rest)
    have hrest : ∀ r ∈ rest, contentOk r = true :=
      fun r hr => h r (List.mem_cons_of_mem _ hr)
    obtain ⟨g, hg, hiff, hF, hT⟩ := ih hrest
    by_cases hm : matchesRequestId req postId = true
    · cases req with
      | obj fs =>
        refine ⟨⟨true, dGet fs "topic" (.str ""),
            String.mk ((contentStrOf fs).toList.take 50) ++ "..."⟩,
          scanRequestsDict_cons_match postId fs rest hm hreq, ?_, ?_, ?_⟩
        · simp only [show (⟨true, dGet fs "topic" (.str ""),
              String.mk ((contentStrOf fs).toList.take 50) ++ "..."⟩ :
              GuardResult).allowed = true from rfl, true_iff]
          exact ⟨.obj fs, List.mem_cons_self _ _, hm⟩
        · intro hbad
          simp at hbad
        · intro _
          exact ⟨fs, List.mem_cons_self _ _, hm, rfl⟩
      | str s => simp [matchesRequestId] at hm
      | num n => simp [matchesRequestId] at hm
      | bool b => simp [matchesRequestId] at hm
      | null => simp [matchesRequestId] at hm
      | list l => simp [matchesRequestId] at hm
    · have hm2 : matchesRequestId req postId = false := by
        cases hmv : matchesRequestId req postId
        · rfl
        · exact absurd hmv hm
      refine ⟨g, ?_, ?_, hF, ?_⟩
      · rw [scanRequestsDict_cons_skip postId req rest hm2]
        exact hg
      · rw [hiff]
        constructor
        · rintro ⟨r, hr, hmr⟩
          exact ⟨r, List.mem_cons_of_mem _ hr, hmr⟩
        · rintro ⟨r, hr, hmr⟩
          rcases List.mem_cons.mp hr with rfl | hr2
          · exact absurd hmr hm
          · exact ⟨r, hr2, hmr⟩
      · intro hgT
        obtain ⟨fs2, hmem, hm2b, hgeq⟩ := hT hgT
        exact ⟨fs2, List.mem_cons_of_mem _ hmem, hm2b, hgeq⟩

/-- C3 counterexample: the dict-shaped feed branch consults only the
`request_id` field.  A feed entry carrying the post id under the `id`
field is a match under the either-of-two-field-names reading of the
claim, yet the guard answers with the fail-closed triple. -/
theorem validate_dict_feed_ignores_id_counterexample :
    matchesIdentifier
      (.obj [("id", .str "p1"), ("topic", .str "help"), ("content", .str "need X")])
      "p1" = true ∧
    validate_post_id_in_subscribed_topics "p1"
      (.ok (.obj [("requests", .list [.obj [("id", .str "p1"),
        ("topic", .str "help"), ("content", .str "need X")]])])) =
      ⟨false, .str "", ""⟩ :=
  ⟨rfl, rfl⟩

/-- C3 amended: on a feed whose entries carry string (or absent) content
fields, the guard answers allowed together with the topic of the matched entry
and 50-character-plus-ellipsis preview exactly when an entry matches the
post id — under `id` or `request_id` when the feed is list-shaped, but
under `request_id` only when the feed is dict-shaped (entries under its
`requests` key); it answers the fail-closed empty triple when no entry
matches, when the response has neither shape, and when the feed fetch
itself fails. -/
theorem validate_post_id_amended (postId : String) :
    (∀ e, validate_post_id_in_subscribed_topics postId (.error e) =
       ⟨false, .str "", ""⟩) ∧
    (∀ xs, (∀ r ∈ xs, contentOk r = true) →
       ((validate_post_id_in_subscribed_topics postId (.ok (.list xs))).allowed =
          true ↔ ∃ r ∈ xs, matchesIdentifier r postId = true)) ∧
    (∀ fs xs, dGet fs "requests" (.list []) = .list xs →
       (∀ r ∈ xs, contentOk r = true) →
       ((validate_post_id_in_subscribed_topics postId (.ok (.obj fs))).allowed =
          true ↔ ∃ r ∈ xs, matchesRequestId r postId = true)) ∧
    (∀ xs, (∀ r ∈ xs, contentOk r = true) →
       (validate_post_id_in_subscribed_topics postId (.ok (.list xs))).allowed =
         true →
       ∃ fs, JValue.obj fs ∈ xs ∧ matchesIdentifier (.obj fs) postId = true ∧
         validate_post_id_in_subscribed_topics postId (.ok (.list xs)) =
           ⟨true, dGet fs "topic" (.str ""),
            String.mk ((contentStrOf fs).toList.take 50) ++ "..."⟩) ∧
    (∀ xs, (∀ r ∈ xs, contentOk r = true) →
       (validate_post_id_in_subscribed_topics postId (.ok (.list xs))).allowed =
         false →
       validate_post_id_in_subscribed_topics postId (.ok (.list xs)) =
         ⟨false, .str "", ""⟩) ∧
    (∀ v, isList v = false → isObj v = false →
       validate_post_id_in_subscribed_topics postId (.ok v) =
         ⟨false, .str "", ""⟩) := by
  refine ⟨fun e => rfl, ?_, ?_, ?_, ?_, ?_⟩
  · intro xs h
    obtain ⟨g, hg, hiff, hF, hT⟩ := scanRequestsList_spec postId xs h
    have hv : validate_post_id_in_subscribed_topics postId (.ok (.list xs)) = g := by
      simp [validate_post_id_in_subscribed_topics, validateCore, hg]
    rw [hv]
    exact hiff
  · intro fs xs hreqs h
    obtain ⟨g, hg, hiff, hF, hT⟩ := scanRequestsDict_spec postId xs h
    have hv : validate_post_id_in_subscribed_topics postId (.ok (.obj fs)) = g := by
      simp [validate_post_id_in_subscribed_topics, validateCore, hreqs,
        iterElems, hg]
    rw [hv]
    exact hiff
  · intro xs h hall
    obtain ⟨g, hg, hiff, hF, hT⟩ := scanRequestsList_spec postId xs h
    have hv : validate_post_id_in_subscribed_topics postId (.ok (.list xs)) = g := by
      simp [validate_post_id_in_subscribed_topics, validateCore, hg]
    rw [hv] at hall ⊢
    exact hT hall
  · intro xs h hall
    obtain ⟨g, hg, hiff, hF, hT⟩ := scanRequestsList_spec postId xs h
    have hv : validate_post_id_in_subscribed_topics postId (.ok (.list xs)) = g := by
      simp [validate_post_id_in_subscribed_topics, validateCore, hg]
    rw [hv] at hall ⊢
    exact hF hall
  · intro v hl ho
    cases v with
    | list xs => simp [isList] at hl
    | obj fs => simp [isObj] at ho
    | str s => rfl
    | num n => rfl
    | bool b => rfl
    | null => rfl

/-- C3 amended witness: a list-shaped feed entry matching under `id`
makes the guard allow and return the topic of the entry and its truncated
preview. -/
theorem validate_post_id_amended_witness :
    (validate_post_id_in_subscribed_topics "p1"
      (.ok (.list [.obj [("id", .str "p1"), ("topic", .str "help"),
        ("content", .str "need X")]]))).allowed = true ∧
    validate_post_id_in_subscribed_topics "p1" (.error "Connection refused") =
      ⟨false, .str "", ""⟩ :=
  ⟨((validate_post_id_amended "p1").2.1
      [.obj [("id", .str "p1"), ("topic", .str "help"),
        ("content", .str "need X")]]
      (by decide)).mpr
      ⟨.obj [("id", .str "p1"), ("topic", .str "help"),
        ("content", .str "need X")], by simp, by decide⟩,
   (validate_post_id_amended "p1").1 "Connection refused"⟩
